import Mathlib

/-!
Shallow embedding of the RAG answer pipeline of the FAQ chatbot backend
(`backend/services/chat_service.py`, `backend/services/session_manager.py`,
`backend/store/vector_store.py`, data model from `backend/models.py`), with
theorems settling the behavioural claims about it.

Modelling conventions:
* Python floats (similarity scores, cosine distances) are modelled as `ℚ`.
* Python dict metadata is modelled as an association list `List (String × String)`
  (only string-valued keys are ever read by the embedded code).
* Python exceptions are modelled with `Except`; collaborator calls that the
  pipeline awaits are modelled by an environment record holding each call's
  outcome, and the pipeline additionally records which collaborator calls it
  performed (a trace of `Effect`s).
-/

/-- `ContentType` enum from `models.py` (values "text" / "image"). -/
inductive ContentType where
  | text
  | image
deriving DecidableEq, Repr

/-- Python `d.get(key, default)` on a string-valued metadata dict. -/
def metaGet (m : List (String × String)) (k d : String) : String :=
  match m.lookup k with
  | some v => v
  | none => d

/-- `SearchResult` model from `models.py`. -/
structure SearchResult where
  content : String
  score : ℚ
  metadata : List (String × String)
  content_type : ContentType
deriving DecidableEq, Repr

/-- `SourceInfo` model from `models.py` (`image_path` defaults to `None`). -/
structure SourceInfo where
  content : String
  source_file : String
  content_type : ContentType
  score : ℚ
  image_path : Option String
deriving DecidableEq, Repr

/-- `ChatMessage` model from `models.py`. -/
structure ChatMessage where
  question : String
  answer : String
  sources : List SourceInfo
  timestamp : String
deriving DecidableEq, Repr

/-- One entry of the prompt message list built by `ChatService._build_prompt`
(a Python dict with "role" and "content" keys). -/
structure PromptMessage where
  role : String
  content : String
deriving DecidableEq, Repr

/-- `LLMResponse` model from `models.py` (usage dict modelled as an
association list of token counters). -/
structure LLMResponse where
  content : String
  model : String
  usage : List (String × Nat)
deriving DecidableEq, Repr

/-- `ChatResponse` model from `models.py`. -/
structure ChatResponse where
  answer : String
  sources : List SourceInfo
  session_id : String
deriving DecidableEq, Repr

namespace SessionManager

/-- One MongoDB session document, as described in `session_manager.py`:
a session id, the ordered message array, and the creation timestamp.
Storing a `ChatMessage` directly models `model_dump` / `model_validate`
round-tripping through BSON. -/
structure SessionDoc where
  session_id : String
  messages : List ChatMessage
  created_at : String
deriving DecidableEq, Repr

/-- The "sessions" collection: the ordered list of session documents. -/
abbrev SessionStore := List SessionDoc

/-- MongoDB `find_one` on the filter by session id: first matching document. -/
def find_one (store : SessionStore) (sid : String) : Option SessionDoc :=
  store.find? (fun doc => doc.session_id == sid)

/-- MongoDB `update_one`: applies `f` to the first document matching the
session-id filter; no match means no change. -/
def update_one : SessionStore → String → (SessionDoc → SessionDoc) → SessionStore
  | [], _, _ => []
  | doc :: rest, sid, f =>
    if doc.session_id == sid then f doc :: rest
    else doc :: update_one rest sid f

/-- `SessionManager.create_session`: `insert_one` of a fresh document with an
empty message array (the generated uuid and timestamp are parameters here). -/
def create_session (store : SessionStore) (session_id created_at : String) :
    SessionStore :=
  store ++ [{ session_id := session_id, messages := [], created_at := created_at }]

/-- `SessionManager.add_message`: `update_one` with a push of one new
`ChatMessage` onto the matched session's message array (the server-assigned
timestamp is a parameter here). -/
def add_message (store : SessionStore) (session_id question answer : String)
    (sources : List SourceInfo) (timestamp : String) : SessionStore :=
  update_one store session_id (fun doc =>
    { doc with
        messages := doc.messages ++
          [{ question := question, answer := answer,
             sources := sources, timestamp := timestamp }] })

/-- The Python slice `xs[-n:]` for a natural `n`: note that for `n = 0` it is
the whole list (`xs[-0:]` is `xs[0:]`), not the empty list. -/
def sliceLastPy (xs : List ChatMessage) (n : Nat) : List ChatMessage :=
  if n = 0 then xs else xs.drop (xs.length - n)

/-- `SessionManager.get_recent_history`: find the session document, return
`[]` when it is absent, otherwise `messages[-n:] if len(messages) > n else
messages`. -/
def get_recent_history (store : SessionStore) (sid : String) (n : Nat) :
    List ChatMessage :=
  match find_one store sid with
  | none => []
  | some doc =>
    if doc.messages.length > n then sliceLastPy doc.messages n else doc.messages

end SessionManager

namespace VectorStore

/-- One stored item of the ChromaDB collection as `VectorStore.search` sees
it for a fixed query: its document text, its metadata, and its cosine
distance to the query (the embedding function is external to the repository,
so each (store state, query) pair determines one distance per item). -/
structure StoredEntry where
  document : String
  metadata : List (String × String)
  dist : ℚ
deriving DecidableEq, Repr

/-- The ChromaDB collection contents (for a fixed query). -/
abbrev Collection := List StoredEntry

/-- Python `ContentType(value)`: "text" and "image" are the two enum values,
anything else raises `ValueError` (modelled as `none`). -/
def parseContentType (s : String) : Option ContentType :=
  if s = ("text") then some ContentType.text
  else if s = ("image") then some ContentType.image
  else none

/-- The `SearchResult` built for one query hit in the loop of
`VectorStore.search`: `score = 1.0 - dist`, content type parsed from the
stored metadata with default "text"; `none` models the `ValueError` of an
unparseable content-type tag. -/
def searchResultOf (e : StoredEntry) : Option SearchResult :=
  (parseContentType (metaGet e.metadata ("content_type") ("text"))).map (fun ct =>
    { content := e.document, score := 1 - e.dist,
      metadata := e.metadata, content_type := ct })

/-- The result-building loop of `VectorStore.search` over the query hits;
the first unparseable content-type tag aborts the whole call (`ValueError`). -/
def buildResults : List StoredEntry → Option (List SearchResult)
  | [] => some []
  | e :: es =>
    match searchResultOf e, buildResults es with
    | some r, some rs => some (r :: rs)
    | _, _ => none

/-- `collection.query` of ChromaDB, modelled from its contract: the
`n` stored items nearest to the query, ordered by ascending cosine
distance. -/
def collectionQuery (c : Collection) (n : Nat) : List StoredEntry :=
  (c.mergeSort (fun a b => decide (a.dist ≤ b.dist))).take n

/-- `VectorStore.search`: empty collection short-circuits to `[]`;
otherwise query the `min top_k count` nearest items and convert each
distance `d` to the similarity score `1 - d`. -/
def search (c : Collection) (top_k : Nat) : Option (List SearchResult) :=
  if c.length = 0 then some []
  else buildResults (collectionQuery c (min top_k c.length))

/-- `VectorStore.is_empty`: true iff the collection count is zero. -/
def is_empty (c : Collection) : Bool :=
  c.length == 0

end VectorStore

namespace ChatService

/-- `SYSTEM_PROMPT` constant of `chat_service.py`. -/
def SYSTEM_PROMPT : String :=
  "あなたはFAQチャットボットです。" ++
  "提供されたFAQコンテキストに基づいてのみ回答してください。" ++
  "コンテキストに含まれない情報については「該当する情報が見つかりませんでした」と回答してください。" ++
  "回答は簡潔かつ正確に、日本語で行ってください。"

/-- The fixed answer text returned when the vector store is empty. -/
def EMPTY_STORE_ANSWER : String :=
  "ナレッジベースが未構築です。先にデータの取り込みを実行してください。"

/-- The fixed answer text returned by the exception handler of `answer`. -/
def FAILURE_ANSWER : String :=
  "回答の生成に失敗しました。しばらくしてから再度お試しください。"

/-- The `for i, result in enumerate(context, 1)` loop of `_build_prompt`:
each context part is the content prefixed with its 1-based number. -/
def contextParts : Nat → List SearchResult → List String
  | _, [] => []
  | i, r :: rs => (("[") ++ toString i ++ ("] ") ++ r.content) :: contextParts (i + 1) rs

/-- The history loop of `_build_prompt`: one user entry with the question and
one assistant entry with the answer, per history message in order. -/
def historyMessages : List ChatMessage → List PromptMessage
  | [] => []
  | m :: ms =>
    { role := "user", content := m.question } ::
    { role := "assistant", content := m.answer } :: historyMessages ms

/-- `ChatService._build_prompt`: system prompt, then (when the retrieved
context is non-empty) one system message with the numbered FAQ context joined
by blank lines, then the user/assistant history pairs, then the question. -/
def build_prompt (question : String) (context : List SearchResult)
    (history : List ChatMessage) : List PromptMessage :=
  let messages : List PromptMessage := [{ role := "system", content := SYSTEM_PROMPT }]
  let messages :=
    if context.isEmpty then messages
    else
      let context_text := String.intercalate ("\n\n") (contextParts 1 context)
      messages ++
        [{ role := "system", content := ("以下はFAQコンテキストです:\n\n") ++ context_text }]
  let messages := messages ++ historyMessages history
  messages ++ [{ role := "user", content := question }]

/-- `ChatService._build_sources`: the accumulating loop over the search
results; `source_file` defaults to the empty string, `image_path` is read
from the metadata only for image results and is `None` otherwise. -/
def build_sources (search_results : List SearchResult) : List SourceInfo :=
  search_results.foldl (fun sources r =>
    sources ++
      [{ content := r.content,
         source_file := metaGet r.metadata ("source_file") (""),
         content_type := r.content_type,
         score := r.score,
         image_path :=
           if r.content_type = ContentType.image then r.metadata.lookup ("image_path")
           else none }]) []

/-- The collaborator calls `answer` can perform, in the order it performs
them: vector-store search, history recall, LLM chat completion, history
append. -/
inductive Effect where
  | searchCall
  | historyCall
  | llmCall
  | addMessageCall
deriving DecidableEq, Repr

/-- The outcomes of the collaborator calls available to one `answer` call:
`is_empty` on the vector store, `search` on the vector store, the session
manager's history recall, the LLM chat completion (as a function of the
prompt it is sent), and the session manager's history append. An `Except.error`
models the call raising an exception. -/
structure Env (ε : Type) where
  is_empty : Except ε Bool
  search : Except ε (List SearchResult)
  get_recent_history : Except ε (List ChatMessage)
  chat_completion : List PromptMessage → Except ε LLMResponse
  add_message : Except ε Unit

/-- The `try` block of `ChatService.answer` (steps 1 to 6 and the success
return): sequential collaborator calls, each recorded in the effect trace;
the first exception aborts the block carrying the trace so far. -/
def answerTry {ε : Type} (env : Env ε) (question session_id : String) :
    Except (ε × List Effect) (ChatResponse × List Effect) :=
  match env.search with
  | Except.error e => Except.error (e, [Effect.searchCall])
  | Except.ok search_results =>
    match env.get_recent_history with
    | Except.error e => Except.error (e, [Effect.searchCall, Effect.historyCall])
    | Except.ok history =>
      let messages := build_prompt question search_results history
      match env.chat_completion messages with
      | Except.error e =>
        Except.error (e, [Effect.searchCall, Effect.historyCall, Effect.llmCall])
      | Except.ok llm_response =>
        let sources := build_sources search_results
        match env.add_message with
        | Except.error e =>
          Except.error (e, [Effect.searchCall, Effect.historyCall,
                            Effect.llmCall, Effect.addMessageCall])
        | Except.ok _ =>
          Except.ok
            ({ answer := llm_response.content, sources := sources,
               session_id := session_id },
             [Effect.searchCall, Effect.historyCall,
              Effect.llmCall, Effect.addMessageCall])

/-- `ChatService.answer`: the emptiness guard runs before the `try` block
(so its own exception propagates); inside the `try` block any exception is
caught and converted to the fixed failure response. The returned trace lists
the collaborator calls performed. -/
def answer {ε : Type} (env : Env ε) (question session_id : String) :
    Except ε (ChatResponse × List Effect) :=
  match env.is_empty with
  | Except.error e => Except.error e
  | Except.ok true =>
    Except.ok
      ({ answer := EMPTY_STORE_ANSWER, sources := [], session_id := session_id }, [])
  | Except.ok false =>
    match answerTry env question session_id with
    | Except.ok res => Except.ok res
    | Except.error (_, fx) =>
      Except.ok
        ({ answer := FAILURE_ANSWER, sources := [], session_id := session_id }, fx)

end ChatService

section PipelineClaims

open ChatService

/-- C1: with a non-empty vector store, if any stage of the guarded pipeline
(retrieval, history recall, prompt assembly, generation, citation derivation,
or persistence) raises, `answer` catches the exception and returns the fixed
failure text, an empty source list and the given session id, and never
re-raises (the result is `Except.ok`, not `Except.error`). -/
theorem spec_C1 {ε : Type} (env : Env ε) (question session_id : String)
    (e : ε) (fx : List Effect)
    (hne : env.is_empty = Except.ok false)
    (hfail : answerTry env question session_id = Except.error (e, fx)) :
    answer env question session_id =
      Except.ok
        ({ answer := FAILURE_ANSWER, sources := [], session_id := session_id }, fx) := by
  unfold answer
  rw [hne, hfail]

/-- Concrete environment whose vector-store search raises. -/
def envSearchDown : Env String :=
  { is_empty := Except.ok false
    search := Except.error ("search down")
    get_recent_history := Except.ok []
    chat_completion := fun _ => Except.ok { content := "X", model := "m", usage := [] }
    add_message := Except.ok () }

/-- Witness for C1 at a concrete environment whose retrieval stage raises. -/
theorem spec_C1_witness :
    envSearchDown.is_empty = Except.ok false ∧
    answerTry envSearchDown ("q") ("s") =
      Except.error (("search down"), [Effect.searchCall]) ∧
    answer envSearchDown ("q") ("s") =
      Except.ok
        ({ answer := FAILURE_ANSWER, sources := [], session_id := "s" },
         [Effect.searchCall]) :=
  ⟨rfl, rfl, spec_C1 envSearchDown ("q") ("s") ("search down") [Effect.searchCall] rfl rfl⟩

/-- Concrete environment: generation succeeds with answer text "X", the
subsequent history append raises. -/
def envAppendDown : Env String :=
  { is_empty := Except.ok false
    search := Except.ok []
    get_recent_history := Except.ok []
    chat_completion := fun _ => Except.ok { content := "X", model := "m", usage := [] }
    add_message := Except.error ("mongo down") }

/-- C2 counterexample: generation succeeds with answer text "X" and the
history append then raises, yet the caller receives the fixed failure text,
not the generated answer — refuting the claim that the generated answer text
is still returned. -/
theorem spec_C2_counterexample :
    answer envAppendDown ("q") ("s") =
      Except.ok
        ({ answer := FAILURE_ANSWER, sources := [], session_id := "s" },
         [Effect.searchCall, Effect.historyCall, Effect.llmCall, Effect.addMessageCall]) ∧
    FAILURE_ANSWER ≠ ("X") :=
  ⟨rfl, by decide⟩

/-- C2 as amended: when generation succeeds but the subsequent history append
raises, `answer` catches the exception and returns the fixed failure text with
empty sources and the given session id; the generated answer text is discarded
rather than returned (and the turn was not recorded). -/
theorem spec_C2 {ε : Type} (env : Env ε) (question session_id : String)
    (results : List SearchResult) (history : List ChatMessage)
    (resp : LLMResponse) (e : ε)
    (h0 : env.is_empty = Except.ok false)
    (h1 : env.search = Except.ok results)
    (h2 : env.get_recent_history = Except.ok history)
    (h3 : env.chat_completion (build_prompt question results history) = Except.ok resp)
    (h4 : env.add_message = Except.error e) :
    answer env question session_id =
      Except.ok
        ({ answer := FAILURE_ANSWER, sources := [], session_id := session_id },
         [Effect.searchCall, Effect.historyCall, Effect.llmCall, Effect.addMessageCall]) := by
  unfold answer answerTry
  rw [h0, h1, h2]
  simp only [h3, h4]

/-- Witness for C2 (amended) at the concrete failing-append environment. -/
theorem spec_C2_witness :
    envAppendDown.is_empty = Except.ok false ∧
    envAppendDown.search = Except.ok [] ∧
    envAppendDown.get_recent_history = Except.ok [] ∧
    envAppendDown.chat_completion (build_prompt ("q") [] []) =
      Except.ok { content := "X", model := "m", usage := [] } ∧
    envAppendDown.add_message = Except.error ("mongo down") ∧
    answer envAppendDown ("q") ("s") =
      Except.ok
        ({ answer := FAILURE_ANSWER, sources := [], session_id := "s" },
         [Effect.searchCall, Effect.historyCall, Effect.llmCall, Effect.addMessageCall]) :=
  ⟨rfl, rfl, rfl, rfl, rfl,
    spec_C2 envAppendDown ("q") ("s") [] []
      { content := "X", model := "m", usage := [] } ("mongo down") rfl rfl rfl rfl rfl⟩

/-- C3: when the vector store reports zero items, `answer` short-circuits to
the fixed "knowledge base not built" text, empty sources and the given session
id; the empty effect trace certifies that neither the Provider nor the session
append was invoked. -/
theorem spec_C3 {ε : Type} (env : Env ε) (question session_id : String)
    (h : env.is_empty = Except.ok true) :
    answer env question session_id =
      Except.ok
        ({ answer := EMPTY_STORE_ANSWER, sources := [], session_id := session_id }, []) := by
  unfold answer
  rw [h]

/-- Concrete environment whose vector store is empty. -/
def envEmptyStore : Env String :=
  { is_empty := Except.ok true
    search := Except.ok []
    get_recent_history := Except.ok []
    chat_completion := fun _ => Except.ok { content := "X", model := "m", usage := [] }
    add_message := Except.ok () }

/-- Witness for C3 at a concrete empty-store environment. -/
theorem spec_C3_witness :
    envEmptyStore.is_empty = Except.ok true ∧
    answer envEmptyStore ("q") ("s") =
      Except.ok
        ({ answer := EMPTY_STORE_ANSWER, sources := [], session_id := "s" }, []) :=
  ⟨rfl, spec_C3 envEmptyStore ("q") ("s") rfl⟩

/-- C9: when retrieval and history recall succeed but the chat completion on
the assembled prompt raises, `answer` returns the degraded response and its
effect trace ends at the LLM call — the session append was never invoked, so
the session history is unchanged. -/
theorem spec_C9 {ε : Type} (env : Env ε) (question session_id : String)
    (results : List SearchResult) (history : List ChatMessage) (e : ε)
    (h0 : env.is_empty = Except.ok false)
    (h1 : env.search = Except.ok results)
    (h2 : env.get_recent_history = Except.ok history)
    (h3 : env.chat_completion (build_prompt question results history) = Except.error e) :
    answer env question session_id =
      Except.ok
        ({ answer := FAILURE_ANSWER, sources := [], session_id := session_id },
         [Effect.searchCall, Effect.historyCall, Effect.llmCall]) ∧
    Effect.addMessageCall ∉ [Effect.searchCall, Effect.historyCall, Effect.llmCall] := by
  constructor
  · unfold answer answerTry
    rw [h0, h1, h2]
    simp only [h3]
  · decide

/-- Concrete environment whose chat completion raises. -/
def envLlmDown : Env String :=
  { is_empty := Except.ok false
    search := Except.ok []
    get_recent_history := Except.ok []
    chat_completion := fun _ => Except.error ("provider down")
    add_message := Except.ok () }

/-- Witness for C9 at a concrete environment whose generation raises. -/
theorem spec_C9_witness :
    envLlmDown.is_empty = Except.ok false ∧
    envLlmDown.search = Except.ok [] ∧
    envLlmDown.get_recent_history = Except.ok [] ∧
    envLlmDown.chat_completion (build_prompt ("q") [] []) = Except.error ("provider down") ∧
    (answer envLlmDown ("q") ("s") =
      Except.ok
        ({ answer := FAILURE_ANSWER, sources := [], session_id := "s" },
         [Effect.searchCall, Effect.historyCall, Effect.llmCall]) ∧
     Effect.addMessageCall ∉ [Effect.searchCall, Effect.historyCall, Effect.llmCall]) :=
  ⟨rfl, rfl, rfl, rfl,
    spec_C9 envLlmDown ("q") ("s") [] [] ("provider down") rfl rfl rfl rfl⟩

/-- C10: the emptiness check runs before the `try` block of `answer`, so an
exception raised by the check itself propagates to the caller instead of
being converted to the degraded response. -/
theorem spec_C10 {ε : Type} (env : Env ε) (question session_id : String) (e : ε)
    (h : env.is_empty = Except.error e) :
    answer env question session_id = Except.error e := by
  unfold answer
  rw [h]

/-- Concrete environment whose emptiness check raises. -/
def envCountDown : Env String :=
  { is_empty := Except.error ("count failed")
    search := Except.ok []
    get_recent_history := Except.ok []
    chat_completion := fun _ => Except.ok { content := "X", model := "m", usage := [] }
    add_message := Except.ok () }

/-- Witness for C10 at a concrete environment whose emptiness check raises. -/
theorem spec_C10_witness :
    envCountDown.is_empty = Except.error ("count failed") ∧
    answer envCountDown ("q") ("s") = Except.error ("count failed") :=
  ⟨rfl, spec_C10 envCountDown ("q") ("s") ("count failed") rfl⟩

end PipelineClaims

section PromptAndSourceClaims

open ChatService

/-- The numbered context parts: entry `j` (0-based) carries the 1-based
number `i + j` when the loop counter starts at `i`. -/
lemma contextParts_get? (ctx : List SearchResult) :
    ∀ (i j : Nat),
      (contextParts i ctx).get? j =
        (ctx.get? j).map (fun r => ("[") ++ toString (i + j) ++ ("] ") ++ r.content) := by
  induction ctx with
  | nil => intro i j; simp [contextParts]
  | cons r rs ih =>
    intro i j
    cases j with
    | zero => simp [contextParts]
    | succ j =>
      simp only [contextParts, List.get?]
      rw [ih (i + 1) j]
      have : i + 1 + j = i + (j + 1) := by omega
      rw [this]

/-- The history loop of `_build_prompt` emits, per history message in order,
the user/assistant pair — i.e. it is the flat map of that pair. -/
lemma historyMessages_eq_flatMap (history : List ChatMessage) :
    historyMessages history =
      history.flatMap (fun m =>
        [{ role := "user", content := m.question },
         { role := "assistant", content := m.answer }]) := by
  induction history with
  | nil => rfl
  | cons m ms ih => simp [historyMessages, ih]

/-- C4: the assembled prompt is exactly the fixed system instruction, then —
only when retrieval returned results — one system message with the numbered
context block, then one user/assistant pair per history message in order,
then the current question as the final user message, and nothing else; and
the context block numbers every retrieved item's content in retrieval order
starting at 1. -/
theorem spec_C4 (question : String) (context : List SearchResult)
    (history : List ChatMessage) :
    build_prompt question context history =
      { role := "system", content := SYSTEM_PROMPT } ::
        ((if context = [] then ([] : List PromptMessage)
          else
            [{ role := "system",
               content := ("以下はFAQコンテキストです:\n\n") ++
                 String.intercalate ("\n\n") (contextParts 1 context) }]) ++
         history.flatMap (fun m =>
           [{ role := "user", content := m.question },
            { role := "assistant", content := m.answer }]) ++
         [{ role := "user", content := question }]) ∧
    (∀ j, j < context.length →
      (contextParts 1 context).get? j =
        (context.get? j).map (fun r => ("[") ++ toString (j + 1) ++ ("] ") ++ r.content)) := by
  constructor
  · unfold build_prompt
    rw [historyMessages_eq_flatMap]
    cases context with
    | nil => simp
    | cons r rs => simp
  · intro j _
    rw [contextParts_get? context 1 j, Nat.add_comm]

/-- Witness for C4 at a concrete question, context and history. -/
theorem spec_C4_witness :
    build_prompt ("Q?")
        [{ content := "c1", score := 9/10, metadata := [], content_type := ContentType.text }]
        [{ question := "hq", answer := "ha", sources := [], timestamp := "t" }] =
      { role := "system", content := SYSTEM_PROMPT } ::
        ((if ([{ content := "c1", score := 9/10, metadata := [],
                 content_type := ContentType.text }] : List SearchResult) = []
          then ([] : List PromptMessage)
          else
            [{ role := "system",
               content := ("以下はFAQコンテキストです:\n\n") ++
                 String.intercalate ("\n\n")
                   (contextParts 1
                     [{ content := "c1", score := 9/10, metadata := [],
                        content_type := ContentType.text }]) }]) ++
         ([{ question := "hq", answer := "ha", sources := [], timestamp := "t" }] :
             List ChatMessage).flatMap (fun m =>
           [{ role := "user", content := m.question },
            { role := "assistant", content := m.answer }]) ++
         [{ role := "user", content := "Q?" }]) ∧
    (∀ j, j < ([{ content := "c1", score := 9/10, metadata := [],
                  content_type := ContentType.text }] : List SearchResult).length →
      (contextParts 1
          [{ content := "c1", score := 9/10, metadata := [],
             content_type := ContentType.text }]).get? j =
        (([{ content := "c1", score := 9/10, metadata := [],
             content_type := ContentType.text }] : List SearchResult).get? j).map
          (fun r => ("[") ++ toString (j + 1) ++ ("] ") ++ r.content)) :=
  spec_C4 ("Q?")
    [{ content := "c1", score := 9/10, metadata := [], content_type := ContentType.text }]
    [{ question := "hq", answer := "ha", sources := [], timestamp := "t" }]

/-- Accumulating `append` folds are maps. -/
lemma foldl_append_eq_map {α β : Type} (f : α → β) :
    ∀ (xs : List α) (acc : List β),
      xs.foldl (fun s x => s ++ [f x]) acc = acc ++ xs.map f := by
  intro xs
  induction xs with
  | nil => intro acc; simp
  | cons x xs ih => intro acc; simp [ih]

/-- A retrieved image result whose metadata carries no image path. -/
def imageResultNoPath : SearchResult :=
  { content := "img", score := 1/2, metadata := [(("source_file"), ("f.png"))],
    content_type := ContentType.image }

/-- C5 counterexample: an image-kind search result whose metadata has no
"image_path" key maps to a SourceInfo whose image path is absent even though
its content kind is image — refuting the claimed "if and only if". -/
theorem spec_C5_counterexample :
    build_sources [imageResultNoPath] =
      [{ content := "img", source_file := "f.png", content_type := ContentType.image,
         score := 1/2, image_path := none }] ∧
    ¬ (∀ s ∈ build_sources [imageResultNoPath],
        (s.content_type = ContentType.image ↔ s.image_path ≠ none)) := by
  constructor
  · rfl
  · intro h
    have := (h { content := "img", source_file := "f.png",
                 content_type := ContentType.image, score := 1/2,
                 image_path := none } (by rw [show build_sources [imageResultNoPath] = _ from rfl]; exact List.mem_singleton.mpr rfl)).mp rfl
    exact this rfl

/-- C5 as amended: mapping search results to SourceInfos preserves order,
content, score and content kind; the source file name comes from the
metadata, defaulting to the empty string; the image path is absent for
non-image results, and for image results it is the metadata's image-path
entry (absent when the metadata lacks one). -/
theorem spec_C5 (results : List SearchResult) :
    build_sources results =
      results.map (fun r =>
        { content := r.content,
          source_file := metaGet r.metadata ("source_file") (""),
          content_type := r.content_type,
          score := r.score,
          image_path :=
            if r.content_type = ContentType.image then r.metadata.lookup ("image_path")
            else none }) := by
  unfold build_sources
  rw [foldl_append_eq_map]
  simp

end PromptAndSourceClaims

section SessionClaims

open SessionManager

/-- `find_one` misses when no stored document carries the session id. -/
lemma find_one_none_of_fresh (store : SessionStore) (sid : String)
    (h : ∀ doc ∈ store, doc.session_id ≠ sid) :
    find_one store sid = none := by
  induction store with
  | nil => rfl
  | cons d ds ih =>
    have hd : (d.session_id == sid) = false := by
      simp only [beq_eq_false_iff_ne]
      exact h d (List.mem_cons_self d ds)
    simp only [find_one, List.find?_cons, hd]
    exact ih (fun doc hm => h doc (List.mem_cons_of_mem d hm))

/-- `find_one` on a store ending in a document with the searched id, all
earlier documents carrying other ids, returns that document. -/
lemma find_one_append (base : SessionStore) (doc : SessionDoc) (sid : String)
    (hdoc : doc.session_id = sid)
    (h : ∀ d ∈ base, d.session_id ≠ sid) :
    find_one (base ++ [doc]) sid = some doc := by
  induction base with
  | nil => simp [find_one, List.find?_cons, hdoc]
  | cons d ds ih =>
    have hd : (d.session_id == sid) = false := by
      simp only [beq_eq_false_iff_ne]
      exact h d (List.mem_cons_self d ds)
    simp only [List.cons_append, find_one, List.find?_cons, hd]
    exact ih (fun x hm => h x (List.mem_cons_of_mem d hm))

/-- Mongo `update_one` with a filter matching no document is a no-op. -/
lemma update_one_no_match (store : SessionStore) (sid : String)
    (f : SessionDoc → SessionDoc)
    (h : ∀ doc ∈ store, doc.session_id ≠ sid) :
    update_one store sid f = store := by
  induction store with
  | nil => rfl
  | cons d ds ih =>
    have hd : (d.session_id == sid) = false := by
      simp only [beq_eq_false_iff_ne]
      exact h d (List.mem_cons_self d ds)
    simp only [update_one, hd, if_false, Bool.false_eq_true]
    rw [ih (fun doc hm => h doc (List.mem_cons_of_mem d hm))]

/-- `update_one` on a store ending in the unique matching document updates
exactly that document. -/
lemma update_one_append (base : SessionStore) (doc : SessionDoc) (sid : String)
    (f : SessionDoc → SessionDoc)
    (hdoc : doc.session_id = sid)
    (h : ∀ d ∈ base, d.session_id ≠ sid) :
    update_one (base ++ [doc]) sid f = base ++ [f doc] := by
  induction base with
  | nil => simp [update_one, hdoc]
  | cons d ds ih =>
    have hd : (d.session_id == sid) = false := by
      simp only [beq_eq_false_iff_ne]
      exact h d (List.mem_cons_self d ds)
    simp only [List.cons_append, update_one, hd, Bool.false_eq_true, if_false, List.append_eq]
    rw [ih (fun x hm => h x (List.mem_cons_of_mem d hm))]

/-- C8: `add_message` against a session id absent from the store silently
leaves the whole store unchanged (Mongo update-with-filter, no match,
no-op). -/
theorem spec_C8 (store : SessionStore) (sid question ans : String)
    (sources : List SourceInfo) (ts : String)
    (h : ∀ doc ∈ store, doc.session_id ≠ sid) :
    add_message store sid question ans sources ts = store := by
  unfold add_message
  exact update_one_no_match store sid _ h

/-- Witness for C8: appending to a missing session id leaves a concrete
one-session store untouched. -/
theorem spec_C8_witness :
    (∀ doc ∈ ([{ session_id := "other", messages := [], created_at := "t" }] :
        SessionStore), doc.session_id ≠ ("missing")) ∧
    add_message [{ session_id := "other", messages := [], created_at := "t" }]
        ("missing") ("q") ("a") [] ("t1") =
      [{ session_id := "other", messages := [], created_at := "t" }] :=
  ⟨by decide,
   spec_C8 [{ session_id := "other", messages := [], created_at := "t" }]
     ("missing") ("q") ("a") [] ("t1") (by decide)⟩

/-- One (question, answer, sources, timestamp) turn appended to a session. -/
abbrev Turn := String × String × List SourceInfo × String

/-- The `ChatMessage` a turn is stored as. -/
def turnMsg (t : Turn) : ChatMessage :=
  { question := t.1, answer := t.2.1, sources := t.2.2.1, timestamp := t.2.2.2 }

/-- Appending a sequence of turns to one session, in order. -/
def appendTurns (store : SessionStore) (sid : String) (turns : List Turn) :
    SessionStore :=
  turns.foldl (fun st t => add_message st sid t.1 t.2.1 t.2.2.1 t.2.2.2) store

/-- Appending turns to the unique trailing session document accumulates
exactly their `ChatMessage`s, in order, and touches nothing else. -/
lemma appendTurns_state (sid ts : String) :
    ∀ (turns : List Turn) (base : SessionStore) (msgs : List ChatMessage),
      (∀ d ∈ base, d.session_id ≠ sid) →
      appendTurns (base ++ [{ session_id := sid, messages := msgs, created_at := ts }])
          sid turns =
        base ++ [{ session_id := sid, messages := msgs ++ turns.map turnMsg,
                   created_at := ts }] := by
  intro turns
  induction turns with
  | nil => intro base msgs h; simp [appendTurns]
  | cons t rest ih =>
    intro base msgs h
    simp only [appendTurns, List.foldl_cons]
    have hstep :
        add_message (base ++ [{ session_id := sid, messages := msgs, created_at := ts }])
            sid t.1 t.2.1 t.2.2.1 t.2.2.2 =
          base ++ [{ session_id := sid, messages := msgs ++ [turnMsg t], created_at := ts }] := by
      unfold add_message
      rw [update_one_append base _ sid _ rfl h]
      simp [turnMsg]
    rw [hstep]
    have := ih base (msgs ++ [turnMsg t]) h
    simp only [appendTurns] at this
    rw [this, List.append_assoc]
    simp [turnMsg]

/-- C7 counterexample: one turn appended to a fresh session and recalled with
`n = 0` returns the whole message list (the Python slice `messages[-0:]` is
the full list), not the last `min(0, 1) = 0` messages. -/
theorem spec_C7_counterexample :
    get_recent_history
        (add_message (create_session [] ("s") ("t0")) ("s") ("q") ("a") [] ("t1"))
        ("s") 0 =
      [{ question := "q", answer := "a", sources := [], timestamp := "t1" }] ∧
    get_recent_history
        (add_message (create_session [] ("s") ("t0")) ("s") ("q") ("a") [] ("t1"))
        ("s") 0 ≠ [] := by
  constructor
  · rfl
  · decide

/-- C7 as amended: for every positive `n`, recalling history of a freshly
created session after appending a sequence of turns returns the last
`min(n, count)` of them, oldest-first, with question, answer and sources
fields equal to what was written (the list `drop (count - min n count)` of
the written messages); and recalling any session id absent from the store
returns the empty sequence. The `n = 0` case is excluded: there the code
returns the full message list. -/
theorem spec_C7 (base : SessionStore) (sid ts : String)
    (turns : List Turn) (n : Nat)
    (store2 : SessionStore) (sid2 : String) (n2 : Nat)
    (hfresh : ∀ d ∈ base, d.session_id ≠ sid) (hn : 1 ≤ n)
    (h2 : ∀ d ∈ store2, d.session_id ≠ sid2) :
    get_recent_history (appendTurns (create_session base sid ts) sid turns) sid n =
      (turns.map turnMsg).drop (turns.length - min n turns.length) ∧
    get_recent_history store2 sid2 n2 = [] := by
  constructor
  · have hst : appendTurns (create_session base sid ts) sid turns =
        base ++ [{ session_id := sid, messages := turns.map turnMsg, created_at := ts }] := by
      have := appendTurns_state sid ts turns base [] hfresh
      simpa [create_session] using this
    rw [hst]
    unfold get_recent_history
    rw [find_one_append base _ sid rfl hfresh]
    simp only [List.length_map]
    by_cases hlen : turns.length > n
    · rw [if_pos hlen]
      unfold sliceLastPy
      rw [if_neg (by omega)]
      simp only [List.length_map]
      have hmin : turns.length - min n turns.length = turns.length - n := by omega
      rw [hmin]
    · rw [if_neg hlen]
      have h0 : turns.length - min n turns.length = 0 := by omega
      rw [h0, List.drop_zero]
  · unfold get_recent_history
    rw [find_one_none_of_fresh store2 sid2 h2]

/-- Witness for C7 (amended): one turn appended to a fresh session, recalled
with `n = 1`, and a miss on an empty store. -/
theorem spec_C7_witness :
    (∀ d ∈ ([] : SessionStore), d.session_id ≠ ("s")) ∧
    (1 : Nat) ≤ 1 ∧
    (∀ d ∈ ([] : SessionStore), d.session_id ≠ ("x")) ∧
    (get_recent_history
        (appendTurns (create_session [] ("s") ("t0")) ("s")
          [(("q"), ("a"), ([] : List SourceInfo), ("t1"))]) ("s") 1 =
      ([(("q"), ("a"), ([] : List SourceInfo), ("t1"))].map turnMsg).drop
        (([(("q"), ("a"), ([] : List SourceInfo), ("t1"))] : List Turn).length -
          min 1 ([(("q"), ("a"), ([] : List SourceInfo), ("t1"))] : List Turn).length) ∧
     get_recent_history ([] : SessionStore) ("x") 3 = []) :=
  ⟨by simp, by decide, by simp,
   spec_C7 [] ("s") ("t0") [(("q"), ("a"), ([] : List SourceInfo), ("t1"))] 1
     [] ("x") 3 (by simp) (by decide) (by simp)⟩

end SessionClaims

section VectorClaims

open VectorStore

/-- A built search result copies the hit's document text and metadata and
scores it `1 - distance`. -/
lemma searchResultOf_elim {e : StoredEntry} {r : SearchResult}
    (h : searchResultOf e = some r) :
    r.content = e.document ∧ r.metadata = e.metadata ∧ r.score = 1 - e.dist := by
  unfold searchResultOf at h
  cases hp : parseContentType (metaGet e.metadata ("content_type") ("text")) with
  | none => rw [hp] at h; simp at h
  | some ct =>
    rw [hp, Option.map_some'] at h
    injection h with h
    subst h
    exact ⟨rfl, rfl, rfl⟩

/-- The result-building loop succeeds on hits with parseable content-type
tags and yields one result per hit, in order, scored `1 - distance`. -/
lemma buildResults_spec :
    ∀ (es : List StoredEntry), (∀ e ∈ es, searchResultOf e ≠ none) →
      ∃ rs : List SearchResult, buildResults es = some rs
        ∧ rs.length = es.length
        ∧ (∀ r ∈ rs, ∃ e ∈ es, searchResultOf e = some r)
        ∧ rs.map SearchResult.score = es.map (fun e => 1 - e.dist) := by
  intro es
  induction es with
  | nil => intro _; exact ⟨[], rfl, rfl, by simp, rfl⟩
  | cons e es ih =>
    intro h
    obtain ⟨r, hr⟩ : ∃ r, searchResultOf e = some r := by
      cases hc : searchResultOf e with
      | none => exact absurd hc (h e (List.mem_cons_self e es))
      | some r => exact ⟨r, rfl⟩
    obtain ⟨rs, hb, hlen, hmem, hscore⟩ :=
      ih (fun x hx => h x (List.mem_cons_of_mem e hx))
    refine ⟨r :: rs, ?_, ?_, ?_, ?_⟩
    · simp only [buildResults, hr, hb]
    · simp [hlen]
    · intro x hx
      rcases List.mem_cons.mp hx with h1 | h1
      · exact ⟨e, List.mem_cons_self e es, h1 ▸ hr⟩
      · obtain ⟨e2, he2, hs⟩ := hmem x h1
        exact ⟨e2, List.mem_cons_of_mem e he2, hs⟩
    · simp only [List.map_cons, hscore, List.cons.injEq]
      exact ⟨(searchResultOf_elim hr).2.2, trivial⟩

/-- The modelled ChromaDB query returns hits with non-decreasing cosine
distance. -/
lemma collectionQuery_pairwise (c : Collection) (n : Nat) :
    List.Pairwise (fun a b : StoredEntry => a.dist ≤ b.dist) (collectionQuery c n) := by
  unfold collectionQuery
  apply List.Pairwise.sublist (List.take_sublist n _)
  have hs :=
    @List.sorted_mergeSort StoredEntry (fun a b => decide (a.dist ≤ b.dist))
      (fun a b c hab hbc => by
        simp only [decide_eq_true_eq] at hab hbc ⊢
        exact le_trans hab hbc)
      (fun a b => by
        simp only [Bool.or_eq_true, decide_eq_true_eq]
        exact le_total a.dist b.dist)
      c
  exact hs.imp (fun hab => by simpa using hab)

/-- Every modelled query hit is a stored item. -/
lemma collectionQuery_subset (c : Collection) (n : Nat) :
    ∀ e ∈ collectionQuery c n, e ∈ c := by
  intro e he
  have h1 : e ∈ c.mergeSort (fun a b => decide (a.dist ≤ b.dist)) :=
    (List.take_sublist n _).subset he
  exact (List.mergeSort_perm c _).mem_iff.mp h1

/-- The modelled query returns at most the requested number of hits. -/
lemma collectionQuery_length_le (c : Collection) (n : Nat) :
    (collectionQuery c n).length ≤ n := by
  unfold collectionQuery
  rw [List.length_take]
  omega

/-- C6: with every stored item's content-type tag parseable (as every item
written by the add operations is), `search` succeeds; it returns the empty
sequence on an empty store, at most `min k count` results, each result
copying some stored item's document and metadata with score exactly
`1 - (that item's cosine distance)`, and the scores are non-increasing
across the returned sequence. -/
theorem spec_C6 (c : Collection) (k : Nat)
    (hvalid : ∀ e ∈ c, searchResultOf e ≠ none) :
    ∃ rs : List SearchResult,
      search c k = some rs
      ∧ (c = [] → rs = [])
      ∧ rs.length ≤ min k c.length
      ∧ (∀ r ∈ rs, ∃ e ∈ c,
          r.content = e.document ∧ r.metadata = e.metadata ∧ r.score = 1 - e.dist)
      ∧ List.Chain' (fun a b => b ≤ a) (rs.map SearchResult.score) := by
  by_cases hc : c.length = 0
  · refine ⟨[], ?_, fun _ => rfl, by simp, by simp, by simp⟩
    simp [search, hc]
  · obtain ⟨rs, hb, hlen, hmem, hscore⟩ :=
      buildResults_spec (collectionQuery c (min k c.length))
        (fun e he => hvalid e (collectionQuery_subset c _ e he))
    refine ⟨rs, ?_, ?_, ?_, ?_, ?_⟩
    · simp only [search, hc, if_false]
      exact hb
    · intro h
      subst h
      simp at hc
    · rw [hlen]
      exact collectionQuery_length_le c _
    · intro r hr
      obtain ⟨e, he, hs⟩ := hmem r hr
      exact ⟨e, collectionQuery_subset c _ e he, searchResultOf_elim hs⟩
    · rw [hscore]
      apply List.Pairwise.chain'
      rw [List.pairwise_map]
      exact (collectionQuery_pairwise c _).imp (fun hab => sub_le_sub_left hab 1)

/-- The concrete store of the spec's scenario: texts "A", "B", "C" at cosine
distances 1/10, 4/10, 2/10 to the query. -/
def demoCollection : Collection :=
  [{ document := "A", metadata := [(("content_type"), ("text"))], dist := 1/10 },
   { document := "B", metadata := [(("content_type"), ("text"))], dist := 4/10 },
   { document := "C", metadata := [(("content_type"), ("text"))], dist := 2/10 }]

/-- Witness for C6 on the concrete three-item store with `top_k = 2`. -/
theorem spec_C6_witness :
    (∀ e ∈ demoCollection, searchResultOf e ≠ none) ∧
    (∃ rs : List SearchResult,
      search demoCollection 2 = some rs
      ∧ (demoCollection = [] → rs = [])
      ∧ rs.length ≤ min 2 demoCollection.length
      ∧ (∀ r ∈ rs, ∃ e ∈ demoCollection,
          r.content = e.document ∧ r.metadata = e.metadata ∧ r.score = 1 - e.dist)
      ∧ List.Chain' (fun a b => b ≤ a) (rs.map SearchResult.score)) :=
  ⟨by decide, spec_C6 demoCollection 2 (by decide)⟩

end VectorClaims
